import Mathlib

/-!
# Verification of the xtb document class (XtbFile)

A shallow embedding of `XtbFile` (xtb-file access: the translated counterpart of
xmb).  XML tokenizing and tree construction are an external collaborator of the
library, so document construction here starts from an already parsed tree.
Only the structure the xtb dialect reads is modelled: `translationbundle`
elements with their `translation` children, each carrying an `id` attribute and
serialized inner content.  The DOM returns `""` for an absent attribute, so a
missing `id` is modelled as the empty string.
-/

/-- A `translation` element: its `id` attribute (`""` when the attribute is
absent) and its serialized inner content. -/
structure TransElem where
  id : String
  content : String
deriving DecidableEq

/-- A `translationbundle` element: its `lang` attribute and its `translation`
children, in document order. -/
structure Bundle where
  lang : Option String
  translations : List TransElem
deriving DecidableEq

/-- The parsed document tree, reduced to the list of `translationbundle`
elements in document order. -/
structure XmlDoc where
  bundles : List Bundle
deriving DecidableEq

/-- `getElementsByTagName('translation')` over the whole document: all
`translation` elements in document order. -/
def translationElements (doc : XmlDoc) : List TransElem :=
  (doc.bundles.map Bundle.translations).flatten

/-- A trans unit held by the file (`XtbTransUnit`): the `translation` element
it wraps and the id it was created with.  The master back-reference passed as a
further constructor argument only feeds state derivation and is not modelled. -/
structure TransUnit where
  elem : TransElem
  id : String
deriving DecidableEq

/-- Modelled from the spec: the companion (xmb) master document, as far as the
xtb file reads it — its trans-unit ids (`numberOfTransUnits` is their count)
and its source language, which the master may fail to know (it guesses from
the filename).  The `XmbFile` implementation is not among the given sources. -/
structure XmbModel where
  unitIds : List String
  srcLang : Option String
deriving DecidableEq

/-- Modelled from the spec: the outcome of running the `XmbFile` constructor on
the optional master text — it either throws (text is no xmb file) or yields a
master document. -/
inductive MasterParse where
  | failure : MasterParse
  | success : XmbModel → MasterParse
deriving DecidableEq

/-- The `optionalMaster` constructor argument: the master file path together
with the outcome of parsing its content as xmb. -/
structure OptionalMaster where
  path : String
  parsed : MasterParse
deriving DecidableEq

/-- A trans unit stemming from another file, as `importNewTransUnit` reads it:
its id and its source content. -/
structure ImportUnit where
  id : String
  sourceContent : String
deriving DecidableEq

/-- The mutable state of an `XtbFile`: the parsed document, the accumulated
warning list, the lazily initialized trans-unit list (`none` before
`initializeTransUnits` has run), the missing-id counter, the attached master
(if any) and the configured decoration for newly imported targets. -/
structure XtbFile where
  filename : String
  parsedDocument : XmlDoc
  warnings : List String
  transUnits : Option (List TransUnit)
  numberMissingId : Nat
  masterFile : Option XmbModel
  targetPraefix : String
  targetSuffix : String
deriving DecidableEq

/-- Warning pushed for a `translation` element with no id
(`'oops, msg without "id" found in master, please check file %s'`). -/
def missingIdWarning (filename : String) : String :=
  "oops, msg without \"id\" found in master, please check file " ++ filename

/-- Warning pushed when the master's unit count differs from the file's own
(`'%s trans units found in master, but this file has %s. Check if it is the correct master'`). -/
def masterMismatchWarning (numberInMaster myNumber : Nat) : String :=
  toString numberInMaster ++ " trans units found in master, but this file has "
    ++ toString myNumber ++ ". Check if it is the correct master"

/-- Error thrown by `importNewTransUnit` on a duplicate id. -/
def duplicateIdMessage (id : String) : String :=
  "tu with id " ++ id ++ " already exists in file, cannot import it"

/-- Error thrown when the document does not hold exactly one
`translationbundle` element. -/
def noXtbMessage (path : String) : String :=
  "File \"" ++ path ++ "\" seems to be no xtb file (should contain a translationbundle element)"

/-- Error thrown when the optional master cannot be parsed as xmb. -/
def noXmbMasterMessage (path : String) : String :=
  "File \"" ++ path ++ "\" seems to be no xmb file. An xtb file needs xmb as master file."

/-- Substring test on strings, via the underlying character lists. -/
def containsSubstr (s pat : String) : Bool :=
  decide (List.IsInfix pat.toList s.toList)

/-- Modelled from the spec: ICU-message detection (`AbstractTransUnit
.isICUMessage`, not among the given sources).  The spec describes ICU syntax as
`\x7barg, plural|select, category \x7b...\x7d\x7d`; content opening an ICU
plural or select block is recognized, everything else is not. -/
def isICUMessage (content : String) : Bool :=
  List.isPrefixOf "\x7b".toList content.toList &&
    (containsSubstr content ", plural," || containsSubstr content ", select,")

namespace XtbFile

/-- The warnings the `initializeTransUnits` loop pushes: one missing-id warning
per `translation` element whose id attribute is falsy (absent). -/
def transUnitsWarningsOf (filename : String) (elems : List TransElem) : List String :=
  elems.filterMap (fun msg => if msg.id = "" then some (missingIdWarning filename) else none)

/-- The trans units the `initializeTransUnits` loop pushes: one `XtbTransUnit`
per `translation` element, in document order. -/
def transUnitsOf (elems : List TransElem) : List TransUnit :=
  elems.map (fun msg => { elem := msg, id := msg.id })

/-- `initializeTransUnits`: walk all `translation` elements in document order,
pushing a warning for each element without an id and a trans unit for every
element (an id-less element still yields a unit).  The loop interleaves the two
pushes, but they go to different lists, so it is rendered as the two
comprehensions above. -/
def initializeTransUnits (s : XtbFile) : XtbFile :=
  { s with
    warnings := s.warnings ++ transUnitsWarningsOf s.filename (translationElements s.parsedDocument),
    transUnits := some (transUnitsOf (translationElements s.parsedDocument)) }

/-- Modelled from the spec: `countNumbers` of the abstract base class (not
among the given sources) recomputes the derived counters from the live unit
list; only the missing-id counter is needed here. -/
def countNumbers (s : XtbFile) : XtbFile :=
  { s with numberMissingId := ((s.transUnits.getD []).filter (fun tu => tu.id = "")).length }

/-- Modelled from the spec: the base class initializes the trans-unit list
lazily — on first need it runs `initializeTransUnits` and recomputes the
counters; afterwards it is a no-op. -/
def lazyInitializeTransUnits (s : XtbFile) : XtbFile :=
  match s.transUnits with
  | some _ => s
  | none => countNumbers (initializeTransUnits s)

/-- Modelled from the spec: `numberOfTransUnits` of the base class forces lazy
initialization and returns the length of the live unit list. -/
def numberOfTransUnits (s : XtbFile) : Nat × XtbFile :=
  let s1 := lazyInitializeTransUnits s
  ((s1.transUnits.getD []).length, s1)

/-- Modelled from the spec: `numberOfTransUnitsWithMissingId` of the base class
forces lazy initialization and returns the missing-id counter. -/
def numberOfTransUnitsWithMissingId (s : XtbFile) : Nat × XtbFile :=
  let s1 := lazyInitializeTransUnits s
  (s1.numberMissingId, s1)

/-- Modelled from the spec: `warnings()` of the base class forces lazy
initialization and returns the accumulated warning list. -/
def warningsOf (s : XtbFile) : List String × XtbFile :=
  let s1 := lazyInitializeTransUnits s
  (s1.warnings, s1)

/-- Modelled from the spec: `transUnitWithId` of the base class forces lazy
initialization and finds the first unit with the given id. -/
def transUnitWithId (s : XtbFile) (id : String) : Option TransUnit × XtbFile :=
  let s1 := lazyInitializeTransUnits s
  ((s1.transUnits.getD []).find? (fun tu => tu.id = id), s1)

/-- `sourceLanguage`: unsupported natively in xtb; delegates to the attached
master when present, else `null`. -/
def sourceLanguage (s : XtbFile) : Option String :=
  match s.masterFile with
  | some m => m.srcLang
  | none => none

/-- `setSourceLanguage`: does nothing, xtb has no notation for this. -/
def setSourceLanguage (s : XtbFile) (_language : String) : XtbFile :=
  s

/-- `initializeFromContent`, together with the constructor initialization
(`_warnings = []`, missing-id counter `0`): after the external provider has
parsed the text into `doc`, require exactly one `translationbundle` element,
else throw; then, when an optional master is supplied, construct the `XmbFile`
from it (throwing when that fails), record it, and compare its unit count with
the file's own — `numberOfTransUnits()` forces the lazy unit initialization
here — pushing one mismatch warning when they differ. -/
def initializeFromContent (doc : XmlDoc) (path : String)
    (optionalMaster : Option OptionalMaster) (praefix suffix : String) :
    Except String XtbFile :=
  let s0 : XtbFile :=
    { filename := path, parsedDocument := doc, warnings := [], transUnits := none,
      numberMissingId := 0, masterFile := none,
      targetPraefix := praefix, targetSuffix := suffix }
  if doc.bundles.length ≠ 1 then
    Except.error (noXtbMessage path)
  else
    match optionalMaster with
    | none => Except.ok s0
    | some om =>
      match om.parsed with
      | MasterParse.failure => Except.error (noXmbMasterMessage om.path)
      | MasterParse.success m =>
        let s1 := { s0 with masterFile := some m }
        let numberInMaster := m.unitIds.length
        let p := numberOfTransUnits s1
        let myNumber := p.1
        let s2 := p.2
        if numberInMaster ≠ myNumber then
          Except.ok { s2 with
            warnings := s2.warnings ++ [masterMismatchWarning numberInMaster myNumber] }
        else
          Except.ok s2

/-- `appendChild` of a new `translation` element on the first
`translationbundle` element of the document. -/
def appendToFirstBundle (doc : XmlDoc) (e : TransElem) : XmlDoc :=
  match doc.bundles with
  | [] => doc
  | b :: rest => { bundles := { b with translations := b.translations ++ [e] } :: rest }

/-- `importNewTransUnit(transUnit, isDefaultLang, copyContent)`: throw on a
duplicate id; otherwise look up the first `translationbundle` element — when it
exists, create a `translation` element carrying the unit's id whose content is
the unit's source content, decorated with the configured praefix/suffix unless
it is an ICU message, append it to the bundle, push the corresponding new trans
unit and recount; when no bundle element is found, return `null`.  The
`isDefaultLang`/`copyContent` flags are consumed only by
`cloneWithSourceAsTarget`, which produces the master back-reference of the new
unit (not modelled); they do not reach the stored content.  The result pairs
the returned value (or thrown error) with the file state after the call. -/
def importNewTransUnit (s : XtbFile) (transUnit : ImportUnit)
    (_isDefaultLang _copyContent : Bool) :
    Except String (Option TransUnit) × XtbFile :=
  let p := transUnitWithId s transUnit.id
  let s1 := p.2
  if (p.1).isSome then
    (Except.error (duplicateIdMessage transUnit.id), s1)
  else
    match s1.parsedDocument.bundles.head? with
    | some _ =>
      let newContent0 := transUnit.sourceContent
      let newContent :=
        if isICUMessage newContent0 then newContent0
        else s1.targetPraefix ++ newContent0 ++ s1.targetSuffix
      let translationElement : TransElem := { id := transUnit.id, content := newContent }
      let newTransUnit : TransUnit := { elem := translationElement, id := transUnit.id }
      let s2 := { s1 with
        parsedDocument := appendToFirstBundle s1.parsedDocument translationElement }
      let s3 := lazyInitializeTransUnits s2
      let s4 := { s3 with transUnits := some ((s3.transUnits.getD []) ++ [newTransUnit]) }
      let s5 := countNumbers s4
      (Except.ok (some newTransUnit), s5)
    | none => (Except.ok none, s1)

/-! ## Basic lemmas about lazy initialization -/

@[simp] lemma lazyInit_filename (s : XtbFile) :
    (lazyInitializeTransUnits s).filename = s.filename := by
  unfold lazyInitializeTransUnits
  cases h : s.transUnits <;> simp [h, initializeTransUnits, countNumbers]

@[simp] lemma lazyInit_parsedDocument (s : XtbFile) :
    (lazyInitializeTransUnits s).parsedDocument = s.parsedDocument := by
  unfold lazyInitializeTransUnits
  cases h : s.transUnits <;> simp [h, initializeTransUnits, countNumbers]

@[simp] lemma lazyInit_masterFile (s : XtbFile) :
    (lazyInitializeTransUnits s).masterFile = s.masterFile := by
  unfold lazyInitializeTransUnits
  cases h : s.transUnits <;> simp [h, initializeTransUnits, countNumbers]

@[simp] lemma lazyInit_targetPraefix (s : XtbFile) :
    (lazyInitializeTransUnits s).targetPraefix = s.targetPraefix := by
  unfold lazyInitializeTransUnits
  cases h : s.transUnits <;> simp [h, initializeTransUnits, countNumbers]

@[simp] lemma lazyInit_targetSuffix (s : XtbFile) :
    (lazyInitializeTransUnits s).targetSuffix = s.targetSuffix := by
  unfold lazyInitializeTransUnits
  cases h : s.transUnits <;> simp [h, initializeTransUnits, countNumbers]

lemma lazyInit_of_some (s : XtbFile) (l : List TransUnit) (h : s.transUnits = some l) :
    lazyInitializeTransUnits s = s := by
  unfold lazyInitializeTransUnits
  rw [h]

lemma lazyInit_transUnits_isSome (s : XtbFile) :
    (lazyInitializeTransUnits s).transUnits.isSome = true := by
  unfold lazyInitializeTransUnits
  cases h : s.transUnits <;> simp [h, initializeTransUnits, countNumbers]

lemma lazyInit_idem (s : XtbFile) :
    lazyInitializeTransUnits (lazyInitializeTransUnits s) = lazyInitializeTransUnits s := by
  obtain ⟨l, hl⟩ := Option.isSome_iff_exists.mp (lazyInit_transUnits_isSome s)
  exact lazyInit_of_some _ l hl

@[simp] lemma transUnitsOf_length (elems : List TransElem) :
    (transUnitsOf elems).length = elems.length := by
  simp [transUnitsOf]

lemma transUnitWithId_snd (s : XtbFile) (id : String) :
    (transUnitWithId s id).2 = lazyInitializeTransUnits s := rfl

lemma transUnitWithId_fst_lazy (s : XtbFile) (id : String) :
    (transUnitWithId (lazyInitializeTransUnits s) id).1 = (transUnitWithId s id).1 := by
  simp only [transUnitWithId, lazyInit_idem]

lemma numberOfTransUnits_fst_lazy (s : XtbFile) :
    (numberOfTransUnits (lazyInitializeTransUnits s)).1 = (numberOfTransUnits s).1 := by
  simp only [numberOfTransUnits, lazyInit_idem]

lemma numberOfTransUnitsWithMissingId_fst_lazy (s : XtbFile) :
    (numberOfTransUnitsWithMissingId (lazyInitializeTransUnits s)).1
      = (numberOfTransUnitsWithMissingId s).1 := by
  simp only [numberOfTransUnitsWithMissingId, lazyInit_idem]

/-! ## Shape of a successfully constructed file -/

lemma initializeFromContent_ok (doc : XmlDoc) (path : String)
    (om : Option OptionalMaster) (praefix suffix : String) (s : XtbFile)
    (h : initializeFromContent doc path om praefix suffix = Except.ok s) :
    s.parsedDocument = doc ∧ doc.bundles.length = 1 := by
  unfold initializeFromContent at h
  by_cases hb : doc.bundles.length = 1
  · refine ⟨?_, hb⟩
    simp only [hb, ne_eq, not_true_eq_false, if_false] at h
    match om with
    | none =>
      simp only at h
      cases h
      rfl
    | some omv =>
      match hp : omv.parsed with
      | MasterParse.failure => simp [hp] at h
      | MasterParse.success m =>
        simp only [hp] at h
        split at h <;> cases h <;> simp [numberOfTransUnits]
  · simp [hb] at h

lemma sourceLanguage_of_none (s : XtbFile) (h : s.masterFile = none) :
    sourceLanguage s = none := by
  unfold sourceLanguage
  rw [h]

lemma sourceLanguage_of_some (s : XtbFile) (m : XmbModel) (h : s.masterFile = some m) :
    sourceLanguage s = m.srcLang := by
  unfold sourceLanguage
  rw [h]

/-- Every warning pushed by the `initializeTransUnits` loop is the missing-id
warning for the file. -/
lemma transUnitsWarningsOf_mem (path : String) (elems : List TransElem) (w : String)
    (hw : w ∈ transUnitsWarningsOf path elems) : w = missingIdWarning path := by
  simp only [transUnitsWarningsOf, List.mem_filterMap] at hw
  obtain ⟨a, _, ha⟩ := hw
  by_cases hid : a.id = ""
  · rw [if_pos hid] at ha
    exact (Option.some.inj ha).symm
  · rw [if_neg hid] at ha
    cases ha

/-- Reduction of a successful construction with a parsing master: the check of
the root element passes, the master is recorded, the count comparison forces
unit initialization, and the mismatch warning is pushed exactly when the
counts differ. -/
lemma initializeFromContent_master_success (doc : XmlDoc) (path mp : String)
    (m : XmbModel) (praefix suffix : String) (h1 : doc.bundles.length = 1) :
    initializeFromContent doc path (some ⟨mp, MasterParse.success m⟩) praefix suffix =
      Except.ok
        { filename := path, parsedDocument := doc,
          warnings := transUnitsWarningsOf path (translationElements doc) ++
            (if m.unitIds.length = (translationElements doc).length then []
             else [masterMismatchWarning m.unitIds.length (translationElements doc).length]),
          transUnits := some (transUnitsOf (translationElements doc)),
          numberMissingId :=
            ((transUnitsOf (translationElements doc)).filter (fun tu => tu.id = "")).length,
          masterFile := some m,
          targetPraefix := praefix, targetSuffix := suffix } := by
  unfold initializeFromContent
  simp only [h1, ne_eq, not_true_eq_false, if_false, numberOfTransUnits,
    lazyInitializeTransUnits, initializeTransUnits, countNumbers, List.nil_append,
    transUnitsOf_length]
  by_cases hc : m.unitIds.length = (translationElements doc).length
  · simp [hc]
  · simp [hc]

/-- A fresh-id import on a document whose first `translationbundle` lookup
succeeds always takes the appending branch and returns the new unit, whose
element content is the source content, decorated unless it is an ICU message. -/
lemma importNewTransUnit_fresh (s : XtbFile) (tu : ImportUnit) (d c : Bool)
    (hfresh : (transUnitWithId s tu.id).1 = none)
    (hb : (s.parsedDocument.bundles.head?).isSome = true) :
    (importNewTransUnit s tu d c).1 =
      Except.ok (some
        { elem :=
            { id := tu.id,
              content :=
                if isICUMessage tu.sourceContent then tu.sourceContent
                else s.targetPraefix ++ tu.sourceContent ++ s.targetSuffix },
          id := tu.id }) := by
  obtain ⟨b, hbb⟩ := Option.isSome_iff_exists.mp hb
  unfold importNewTransUnit
  simp only [transUnitWithId_snd, hfresh, Option.isSome_none, Bool.false_eq_true, if_false,
    lazyInit_parsedDocument, hbb, lazyInit_targetPraefix, lazyInit_targetSuffix]

/-- A duplicate-id import throws before touching anything: the state after the
call is the state after the initial lookup (which at most materializes the
lazy unit list). -/
lemma importNewTransUnit_duplicate (s : XtbFile) (tu : ImportUnit) (d c : Bool)
    (u : TransUnit) (h : (transUnitWithId s tu.id).1 = some u) :
    importNewTransUnit s tu d c =
      (Except.error (duplicateIdMessage tu.id), lazyInitializeTransUnits s) := by
  unfold importNewTransUnit
  simp only [transUnitWithId_snd, h, Option.isSome_some, if_true]

end XtbFile

/-! ## The claims -/

/-- C5: for a document constructed from its text alone (no optional master),
construction succeeds exactly when the parsed tree contains exactly one
`translationbundle` element — zero occurrences and more than one occurrence
both throw the format error, exactly one succeeds. -/
theorem c5_construction_ok_iff_one_translationbundle
    (doc : XmlDoc) (path praefix suffix : String) :
    (XtbFile.initializeFromContent doc path none praefix suffix).isOk = true
      ↔ doc.bundles.length = 1 := by
  unfold XtbFile.initializeFromContent
  by_cases h : doc.bundles.length = 1 <;> simp [h, Except.isOk, Except.toBool]

/-- C7: a document constructed without a master reports no source language
(`null`, not an error) and `setSourceLanguage` leaves it entirely unchanged; a
document constructed with a master that parsed successfully reports exactly
the master's source language. -/
theorem c7_sourceLanguage_delegates_to_master
    (doc : XmlDoc) (path praefix suffix : String) :
    (∀ s, XtbFile.initializeFromContent doc path none praefix suffix = Except.ok s →
        XtbFile.sourceLanguage s = none ∧
          ∀ lang, XtbFile.setSourceLanguage s lang = s) ∧
    (∀ mp m s,
        XtbFile.initializeFromContent doc path (some ⟨mp, MasterParse.success m⟩)
            praefix suffix = Except.ok s →
        XtbFile.sourceLanguage s = m.srcLang) := by
  constructor
  · intro s hs
    unfold XtbFile.initializeFromContent at hs
    by_cases h : doc.bundles.length = 1
    · simp only [h, ne_eq, not_true_eq_false, if_false] at hs
      cases hs
      exact ⟨rfl, fun _ => rfl⟩
    · simp [h] at hs
  · intro mp m s hs
    by_cases h : doc.bundles.length = 1
    · rw [XtbFile.initializeFromContent_master_success doc path mp m praefix suffix h] at hs
      cases hs
      exact XtbFile.sourceLanguage_of_some _ m rfl
    · unfold XtbFile.initializeFromContent at hs
      simp [h] at hs

/-- C2 counterexample: a well-formed single-bundle xtb document given a master
that does not parse as xmb is NOT constructed — the constructor throws, so the
primary document does not "remain usable". -/
def c2doc : XmlDoc :=
  { bundles := [{ lang := some "en", translations := [{ id := "t1", content := "hello" }] }] }

/-- C2, as stated, is false: at this concrete input construction fails
outright instead of merely skipping the master attachment. -/
theorem c2_counterexample_master_failure_aborts_construction :
    XtbFile.initializeFromContent c2doc "b.xtb"
        (some { path := "m.xmb", parsed := MasterParse.failure }) "" ""
      = Except.error (noXmbMasterMessage "m.xmb") := rfl

/-- C2 amended: when the supplied optional master cannot be parsed as the
companion (xmb) dialect, the failure is fatal to the whole construction — the
constructor of the primary document throws the no-xmb error naming the master
path, and no document is produced. -/
theorem c2_amended_master_failure_fails_whole_construction
    (doc : XmlDoc) (path : String) (om : OptionalMaster) (praefix suffix : String)
    (h1 : doc.bundles.length = 1) (h2 : om.parsed = MasterParse.failure) :
    XtbFile.initializeFromContent doc path (some om) praefix suffix
      = Except.error (noXmbMasterMessage om.path) := by
  unfold XtbFile.initializeFromContent
  simp [h1, h2]

theorem c2_amended_witness :
    c2doc.bundles.length = 1 ∧
    XtbFile.initializeFromContent c2doc "b.xtb"
        (some { path := "m.xmb", parsed := MasterParse.failure }) "" ""
      = Except.error (noXmbMasterMessage "m.xmb") :=
  ⟨rfl, c2_amended_master_failure_fails_whole_construction c2doc "b.xtb"
    { path := "m.xmb", parsed := MasterParse.failure } "" "" rfl rfl⟩

/-- C3: constructing a well-formed document with a master that parses
successfully always succeeds; when the master's unit count differs from the
document's own count, exactly one warning (the mismatch warning naming both
counts) is appended after the parse-time warnings, and when the counts are
equal no such warning is appended. -/
theorem c3_master_count_mismatch_appends_single_warning
    (doc : XmlDoc) (path mp : String) (m : XmbModel) (praefix suffix : String)
    (h1 : doc.bundles.length = 1) :
    (XtbFile.initializeFromContent doc path (some ⟨mp, MasterParse.success m⟩)
        praefix suffix).isOk = true ∧
    ∀ s, XtbFile.initializeFromContent doc path (some ⟨mp, MasterParse.success m⟩)
          praefix suffix = Except.ok s →
      s.warnings = XtbFile.transUnitsWarningsOf path (translationElements doc) ++
        (if m.unitIds.length = (translationElements doc).length then []
         else [masterMismatchWarning m.unitIds.length (translationElements doc).length]) := by
  rw [XtbFile.initializeFromContent_master_success doc path mp m praefix suffix h1]
  exact ⟨rfl, fun s hs => by cases hs; rfl⟩

/-- Witness for C3: a one-unit document with a two-unit master constructs
successfully and carries exactly the mismatch warning. -/
def c3master : XmbModel := { unitIds := ["a", "b"], srcLang := some "de" }

theorem c3_witness :
    c2doc.bundles.length = 1 ∧
    (XtbFile.initializeFromContent c2doc "b.xtb"
        (some ⟨"m.xmb", MasterParse.success c3master⟩) "" "").isOk = true ∧
    ∀ s, XtbFile.initializeFromContent c2doc "b.xtb"
          (some ⟨"m.xmb", MasterParse.success c3master⟩) "" "" = Except.ok s →
      s.warnings = XtbFile.transUnitsWarningsOf "b.xtb" (translationElements c2doc) ++
        (if c3master.unitIds.length = (translationElements c2doc).length then []
         else [masterMismatchWarning c3master.unitIds.length
            (translationElements c2doc).length]) :=
  ⟨rfl,
    (c3_master_count_mismatch_appends_single_warning c2doc "b.xtb" "m.xmb" c3master "" "" rfl).1,
    (c3_master_count_mismatch_appends_single_warning c2doc "b.xtb" "m.xmb" c3master "" "" rfl).2⟩

/-- C10: in a construction with a parsing master whose unit count differs from
the document's own, the warning list of the constructed document is the
parse-time warning list followed by the single mismatch warning, and every
warning in that preceding list is a missing-id warning — so all missing-id
warnings (recorded when the count comparison forces unit initialization)
precede the mismatch warning. -/
theorem c10_missing_id_warnings_precede_master_mismatch
    (doc : XmlDoc) (path mp : String) (m : XmbModel) (praefix suffix : String)
    (s : XtbFile)
    (hs : XtbFile.initializeFromContent doc path (some ⟨mp, MasterParse.success m⟩)
        praefix suffix = Except.ok s)
    (hdiff : m.unitIds.length ≠ (translationElements doc).length) :
    s.warnings = XtbFile.transUnitsWarningsOf path (translationElements doc) ++
        [masterMismatchWarning m.unitIds.length (translationElements doc).length] ∧
    ∀ w ∈ XtbFile.transUnitsWarningsOf path (translationElements doc),
      w = missingIdWarning path := by
  have h1 : doc.bundles.length = 1 :=
    (XtbFile.initializeFromContent_ok doc path _ praefix suffix s hs).2
  rw [XtbFile.initializeFromContent_master_success doc path mp m praefix suffix h1] at hs
  cases hs
  refine ⟨?_, fun w hw => XtbFile.transUnitsWarningsOf_mem path _ w hw⟩
  simp [hdiff]

/-- Witness for C10: a document with two translation elements, one of them
id-less, against a three-unit master. -/
def c10doc : XmlDoc :=
  { bundles := [{ lang := some "en",
                  translations := [{ id := "", content := "x" },
                                   { id := "t2", content := "y" }] }] }

def c10master : XmbModel := { unitIds := ["a", "b", "c"], srcLang := none }

def c10state : XtbFile :=
  { filename := "f.xtb", parsedDocument := c10doc,
    warnings := [missingIdWarning "f.xtb", masterMismatchWarning 3 2],
    transUnits := some (XtbFile.transUnitsOf (translationElements c10doc)),
    numberMissingId := 1, masterFile := some c10master,
    targetPraefix := "", targetSuffix := "" }

theorem c10_witness :
    XtbFile.initializeFromContent c10doc "f.xtb"
        (some ⟨"m.xmb", MasterParse.success c10master⟩) "" "" = Except.ok c10state ∧
    (3 : Nat) ≠ 2 ∧
    (c10state.warnings = XtbFile.transUnitsWarningsOf "f.xtb" (translationElements c10doc) ++
        [masterMismatchWarning 3 2] ∧
      ∀ w ∈ XtbFile.transUnitsWarningsOf "f.xtb" (translationElements c10doc),
        w = missingIdWarning "f.xtb") :=
  ⟨rfl, by decide,
    c10_missing_id_warnings_precede_master_mismatch c10doc "f.xtb" "m.xmb" c10master "" ""
      c10state rfl (by decide)⟩

/-- A plain constructed file over `c2doc` (one bundle, one unit `t1`), as the
constructor leaves it: empty warnings, unit list not yet materialized. -/
def plainFile : XtbFile :=
  { filename := "b.xtb", parsedDocument := c2doc, warnings := [], transUnits := none,
    numberMissingId := 0, masterFile := none, targetPraefix := "", targetSuffix := "" }

/-- C4: importing a unit whose id is already present throws the duplicate-id
error, and the call is atomic on error — the XML document, the observable unit
list and the derived counters are all unchanged. -/
theorem c4_duplicate_id_import_fails_atomically
    (s : XtbFile) (tu : ImportUnit) (d c : Bool) (u : TransUnit)
    (h : (XtbFile.transUnitWithId s tu.id).1 = some u) :
    (XtbFile.importNewTransUnit s tu d c).1 = Except.error (duplicateIdMessage tu.id) ∧
    (XtbFile.importNewTransUnit s tu d c).2.parsedDocument = s.parsedDocument ∧
    (∀ i, (XtbFile.transUnitWithId ((XtbFile.importNewTransUnit s tu d c).2) i).1
        = (XtbFile.transUnitWithId s i).1) ∧
    (XtbFile.numberOfTransUnits ((XtbFile.importNewTransUnit s tu d c).2)).1
      = (XtbFile.numberOfTransUnits s).1 ∧
    (XtbFile.numberOfTransUnitsWithMissingId ((XtbFile.importNewTransUnit s tu d c).2)).1
      = (XtbFile.numberOfTransUnitsWithMissingId s).1 := by
  rw [XtbFile.importNewTransUnit_duplicate s tu d c u h]
  exact ⟨rfl, XtbFile.lazyInit_parsedDocument s,
    fun i => XtbFile.transUnitWithId_fst_lazy s i,
    XtbFile.numberOfTransUnits_fst_lazy s,
    XtbFile.numberOfTransUnitsWithMissingId_fst_lazy s⟩

def c4unit : ImportUnit := { id := "t1", sourceContent := "dup" }

theorem c4_witness :
    (XtbFile.transUnitWithId plainFile "t1").1 =
      some { elem := { id := "t1", content := "hello" }, id := "t1" } ∧
    ((XtbFile.importNewTransUnit plainFile c4unit false true).1 =
        Except.error (duplicateIdMessage "t1") ∧
      (XtbFile.importNewTransUnit plainFile c4unit false true).2.parsedDocument
        = plainFile.parsedDocument ∧
      (∀ i, (XtbFile.transUnitWithId
            ((XtbFile.importNewTransUnit plainFile c4unit false true).2) i).1
          = (XtbFile.transUnitWithId plainFile i).1) ∧
      (XtbFile.numberOfTransUnits
          ((XtbFile.importNewTransUnit plainFile c4unit false true).2)).1
        = (XtbFile.numberOfTransUnits plainFile).1 ∧
      (XtbFile.numberOfTransUnitsWithMissingId
          ((XtbFile.importNewTransUnit plainFile c4unit false true).2)).1
        = (XtbFile.numberOfTransUnitsWithMissingId plainFile).1) :=
  ⟨rfl, c4_duplicate_id_import_fails_atomically plainFile c4unit false true
    { elem := { id := "t1", content := "hello" }, id := "t1" } rfl⟩

/-- C6: the content stored by `importNewTransUnit` in the new `translation`
element is exactly the unit's source content when that content is an ICU
message — no decoration praefix or suffix is applied — and the decorated
source content otherwise, regardless of the `isDefaultLang` and `copyContent`
flags (they do not occur in the stored content at all). -/
theorem c6_icu_source_content_never_decorated
    (s : XtbFile) (tu : ImportUnit) (d c : Bool)
    (hfresh : (XtbFile.transUnitWithId s tu.id).1 = none)
    (hb : (s.parsedDocument.bundles.head?).isSome = true) :
    (XtbFile.importNewTransUnit s tu d c).1 =
      Except.ok (some
        { elem :=
            { id := tu.id,
              content :=
                if isICUMessage tu.sourceContent then tu.sourceContent
                else s.targetPraefix ++ tu.sourceContent ++ s.targetSuffix },
          id := tu.id }) :=
  XtbFile.importNewTransUnit_fresh s tu d c hfresh hb

/-- A file configured with non-empty decoration, to make the ICU exemption
visible. -/
def c6state : XtbFile :=
  { filename := "b.xtb", parsedDocument := c2doc, warnings := [], transUnits := none,
    numberMissingId := 0, masterFile := none,
    targetPraefix := "!pre!", targetSuffix := "!suf!" }

def c6unit : ImportUnit :=
  { id := "icu1",
    sourceContent := "\x7bcount, plural, =0 \x7bnothing\x7d other \x7bsomething\x7d\x7d" }

theorem c6_witness :
    isICUMessage c6unit.sourceContent = true ∧
    (XtbFile.importNewTransUnit c6state c6unit false true).1 =
      Except.ok (some
        { elem := { id := "icu1", content := c6unit.sourceContent }, id := "icu1" }) :=
  ⟨rfl, c6_icu_source_content_never_decorated c6state c6unit false true rfl rfl⟩

/-- C9: on any successfully constructed document (so with exactly one
`translationbundle` element), a fresh-id import never takes the null-returning
branch: the lookup of the root element succeeds, the call returns normally and
its value is never `null`. -/
theorem c9_fresh_import_never_returns_null
    (doc : XmlDoc) (path : String) (om : Option OptionalMaster) (praefix suffix : String)
    (s : XtbFile) (tu : ImportUnit) (d c : Bool)
    (hinit : XtbFile.initializeFromContent doc path om praefix suffix = Except.ok s)
    (hfresh : (XtbFile.transUnitWithId s tu.id).1 = none) :
    ((XtbFile.importNewTransUnit s tu d c).1).isOk = true ∧
    (XtbFile.importNewTransUnit s tu d c).1 ≠ Except.ok none := by
  obtain ⟨hdoc, hlen⟩ := XtbFile.initializeFromContent_ok doc path om praefix suffix s hinit
  have hb : (s.parsedDocument.bundles.head?).isSome = true := by
    rw [hdoc]
    cases hl : doc.bundles with
    | nil => rw [hl] at hlen; simp at hlen
    | cons b rest => rfl
  rw [XtbFile.importNewTransUnit_fresh s tu d c hfresh hb]
  exact ⟨rfl, by simp⟩

def c9unit : ImportUnit := { id := "new1", sourceContent := "S" }

theorem c9_witness :
    XtbFile.initializeFromContent c2doc "b.xtb" none "" "" = Except.ok plainFile ∧
    (XtbFile.transUnitWithId plainFile "new1").1 = none ∧
    (((XtbFile.importNewTransUnit plainFile c9unit false true).1).isOk = true ∧
      (XtbFile.importNewTransUnit plainFile c9unit false true).1 ≠ Except.ok none) :=
  ⟨rfl, rfl, c9_fresh_import_never_returns_null c2doc "b.xtb" none "" "" plainFile
    c9unit false true rfl rfl⟩

def c1unit : ImportUnit := { id := "mergedUnit", sourceContent := "Test" }

/-- C1, evaluated at the failing input: on a freshly constructed document,
importing a non-ICU unit with `isDefaultLang = false, copyContent = false`
stores the unit's SOURCE content (`"Test"`, which is not empty) as the new
translation element's content — `importNewTransUnit` writes
`transUnit.sourceContent()` regardless of `copyContent`, contradicting the
claim (and the function's own doc comment, which promises an empty target
when `copyContent` is false and the language is not the default). -/
theorem c1_copyContent_false_still_stores_source_content :
    XtbFile.initializeFromContent c2doc "b.xtb" none "" "" = Except.ok plainFile ∧
    (XtbFile.importNewTransUnit plainFile c1unit false false).1 =
      Except.ok (some
        { elem := { id := "mergedUnit", content := "Test" }, id := "mergedUnit" }) ∧
    ("Test" : String) ≠ "" :=
  ⟨rfl, rfl, by decide⟩

/-- The C8 scenario document: eleven `translation` elements, the sixth one
lacking its id attribute. -/
def c8doc : XmlDoc :=
  { bundles := [{ lang := some "en",
                  translations :=
                    [{ id := "t01", content := "c01" },
                     { id := "t02", content := "c02" },
                     { id := "t03", content := "c03" },
                     { id := "t04", content := "c04" },
                     { id := "t05", content := "c05" },
                     { id := "", content := "c06" },
                     { id := "t07", content := "c07" },
                     { id := "t08", content := "c08" },
                     { id := "t09", content := "c09" },
                     { id := "t10", content := "c10" },
                     { id := "t11", content := "c11" }] }] }

def c8state : XtbFile :=
  { filename := "f.xtb", parsedDocument := c8doc, warnings := [], transUnits := none,
    numberMissingId := 0, masterFile := none, targetPraefix := "", targetSuffix := "" }

/-- C8: the eleven-unit document with one id-less unit constructs without
failing; `numberOfTransUnits()` still counts the id-less unit (11),
`numberOfTransUnitsWithMissingId()` is 1, and the warning list holds a warning
containing the substring `without "id"`. -/
theorem c8_missing_id_counted_and_warned :
    XtbFile.initializeFromContent c8doc "f.xtb" none "" "" = Except.ok c8state ∧
    (XtbFile.numberOfTransUnits c8state).1 = 11 ∧
    (XtbFile.numberOfTransUnitsWithMissingId c8state).1 = 1 ∧
    (XtbFile.warningsOf c8state).1.any
      (fun w => containsSubstr w "without \"id\"") = true :=
  ⟨rfl, rfl, rfl, rfl⟩

/-- A master whose unit count matches `c2doc` and whose source language is
known. -/
def c7master : XmbModel := { unitIds := ["t1"], srcLang := some "de" }

/-- The state constructed from `c2doc` with `c7master` attached (counts equal,
so no mismatch warning). -/
def c7masterState : XtbFile :=
  { filename := "b.xtb", parsedDocument := c2doc, warnings := [],
    transUnits := some (XtbFile.transUnitsOf (translationElements c2doc)),
    numberMissingId := 0, masterFile := some c7master,
    targetPraefix := "", targetSuffix := "" }

theorem c7_witness :
    XtbFile.sourceLanguage plainFile = none ∧
    XtbFile.setSourceLanguage plainFile "de" = plainFile ∧
    XtbFile.sourceLanguage c7masterState = some "de" :=
  ⟨((c7_sourceLanguage_delegates_to_master c2doc "b.xtb" "" "").1 plainFile rfl).1,
   ((c7_sourceLanguage_delegates_to_master c2doc "b.xtb" "" "").1 plainFile rfl).2 "de",
   (c7_sourceLanguage_delegates_to_master c2doc "b.xtb" "" "").2 "m.xmb" c7master
     c7masterState rfl⟩
